import Mathlib

/-!
# gotk3 accelerator bindings: the marshaling layer

A shallow embedding of `gtk/accel.go` and `gtk/gio_since_3_22.go`.

Every wrapper in those files has the shape *convert the managed arguments,
call one native function, convert the answer back*.  The native toolkit is not
part of the repository, so each wrapper is embedded as a function of the
native entry points it calls: a native function of C type `R f(A, B)` is a
parameter `f : A → B → σ → R × σ`, where `σ` is the state of the native side
(arbitrary unless a definition fixes it).  Out-parameters are passed as the
initial content of the cell and returned as its final content.

Integer types are natural numbers or integers with the reduction modulo the
width written out where a conversion can lose bits:

* Go `uint` (also the underlying type of `gdk.ModifierType`) is 64 bits wide
  on the 64-bit targets the toolkit is built for;
* C `guint`, `GdkModifierType` and `GtkAccelFlags` are 32 bits wide;
* C `gint` and `gboolean` are signed 32-bit, Go `int` is signed 64-bit.

Go strings are byte sequences, `C.CString` copies them and appends the
terminating NUL byte.
-/

namespace Gotk3

/-! ## Machine representations -/

/-- Native address, 0 is the null pointer. -/
abbrev Ptr := Nat

/-- Bytes of a Go string. -/
abbrev GoString := List Nat

/-- Content of a native character buffer, terminator included. -/
abbrev CStr := List Nat

/-- Width of Go `uint` on 64-bit targets. -/
def uintBits : Nat := 64

/-- Width of the native `guint`. -/
def guintBits : Nat := 32

/-- Go conversion `C.guint(x)` of a Go unsigned integer: keeps the low 32 bits. -/
def C.guint (x : Nat) : Nat := x % 2 ^ guintBits

/-- Go conversion `C.GdkModifierType(x)`: the C enum is a 32-bit unsigned. -/
def C.GdkModifierType (x : Nat) : Nat := x % 2 ^ guintBits

/-- Go conversion `C.GtkAccelFlags(x)` of a Go `int`: the low 32 bits, read unsigned. -/
def C.GtkAccelFlags (x : Int) : Nat := (x % 2 ^ guintBits).toNat

/-- Go conversion `C.GQuark(x)`: GQuark is a 32-bit unsigned. -/
def C.GQuark (x : Nat) : Nat := x % 2 ^ guintBits

/-- Go conversion `uint(k)` of a native unsigned value. -/
def uint (k : Nat) : Nat := k % 2 ^ uintBits

/-- Go conversion `gdk.ModifierType(m)`; the managed type is a Go `uint`. -/
def gdk.ModifierType (m : Nat) : Nat := m % 2 ^ uintBits

/-- Two's complement reading of `x` as a signed integer of `w` bits. -/
def wrapSigned (w : Nat) (x : Int) : Int :=
  (x + 2 ^ (w - 1)) % 2 ^ w - 2 ^ (w - 1)

/-- Go type `AccelFlags`, declared `type AccelFlags int`. -/
abbrev AccelFlags := Int

/-- Go conversion `AccelFlags(c)` of a native `gint`. -/
def AccelFlags.ofC (c : Int) : AccelFlags := wrapSigned 64 c

/-- Native constant `GTK_ACCEL_VISIBLE`, `1 << 0` in the toolkit header. -/
def ACCEL_VISIBLE : AccelFlags := 1

/-- Native constant `GTK_ACCEL_LOCKED`, `1 << 1` in the toolkit header. -/
def ACCEL_LOCKED : AccelFlags := 2

/-- Native constant `GTK_ACCEL_MASK`, `0x07` in the toolkit header. -/
def ACCEL_MASK : AccelFlags := 7

/-- Go `C.CString(s)`: a fresh native buffer holding the bytes of `s` and a NUL. -/
def C.CString (s : GoString) : CStr := s ++ [0]

/-- What native code reads from a buffer as a string: the bytes before the first NUL. -/
def cstrContent (buf : CStr) : List Nat := buf.takeWhile (fun b => b != 0)

/-- Go `C.GoString(p)`: the bytes before the first NUL, the empty string for a null pointer. -/
def C.GoString (p : Option CStr) : GoString :=
  match p with
  | none => []
  | some buf => cstrContent buf

/-- Modelled from the spec: `goString` is declared in the package outside the files
embedded here; it converts a native string to a managed one. -/
def goString (cstr : Option CStr) : GoString := C.GoString cstr

/-- Modelled from the spec: `gobool` is declared in the package outside the files
embedded here; a native boolean counts as true when it is not zero. -/
def gobool (b : Int) : Bool := b != 0

/-- Modelled from the spec: `gbool` is declared in the package outside the files
embedded here; it yields the native TRUE (1) or FALSE (0). -/
def gbool (b : Bool) : Int := if b then 1 else 0

/-- Go `error` value built by `errors.New`. -/
structure GoError where
  text : GoString
  deriving DecidableEq

/-- Go `errors.New(s)`. -/
def errors.New (s : GoString) : GoError := ⟨s⟩

/-- Modelled from the spec: `nilPtrErr` is a package variable declared outside the
files embedded here; the text is "cgo returned unexpected nil pointer". -/
def nilPtrErr : GoError :=
  errors.New [99, 103, 111, 32, 114, 101, 116, 117, 114, 110, 101, 100, 32, 117, 110, 101,
    120, 112, 101, 99, 116, 101, 100, 32, 110, 105, 108, 32, 112, 111, 105, 110, 116, 101, 114]

/-! ## Accelerator utilities -/

section Accelerators

variable {σ : Type}

/-- Go `AcceleratorName`, wrapper around `gtk_accelerator_name`. -/
def AcceleratorName (gtk_accelerator_name : Nat → Nat → σ → Option CStr × σ)
    (g_free : Option CStr → σ → σ) (key mods : Nat) (w : σ) : GoString × σ :=
  let r := gtk_accelerator_name (C.guint key) (C.GdkModifierType mods) w
  (goString r.1, g_free r.1 r.2)

/-- Go `AcceleratorValid`, wrapper around `gtk_accelerator_valid`. -/
def AcceleratorValid (gtk_accelerator_valid : Nat → Nat → σ → Int × σ)
    (key mods : Nat) (w : σ) : Bool × σ :=
  let r := gtk_accelerator_valid (C.guint key) (C.GdkModifierType mods) w
  (gobool r.1, r.2)

/-- Go `AcceleratorGetDefaultModMask`, wrapper around `gtk_accelerator_get_default_mod_mask`. -/
def AcceleratorGetDefaultModMask (gtk_accelerator_get_default_mod_mask : σ → Nat × σ)
    (w : σ) : Nat × σ :=
  let r := gtk_accelerator_get_default_mod_mask w
  (gdk.ModifierType r.1, r.2)

/-- What `gtk_accelerator_parse` stores through its two out-pointers; `none` when
it leaves the cell as it found it. -/
structure ParseStores where
  accelerator_key : Option Nat
  accelerator_mods : Option Nat
  deriving DecidableEq

/-- Go `AcceleratorParse`, wrapper around `gtk_accelerator_parse`: the cells `k` and
`m` start at 0, the native parser stores through their addresses, and the
final contents are converted to the managed types. -/
def AcceleratorParse (gtk_accelerator_parse : CStr → σ → ParseStores × σ)
    (acc : GoString) (w : σ) : (Nat × Nat) × σ :=
  let cstr := C.CString acc
  let k := C.guint 0
  let m := C.GdkModifierType 0
  let r := gtk_accelerator_parse cstr w
  let k := r.1.accelerator_key.getD k
  let m := r.1.accelerator_mods.getD m
  ((uint k, gdk.ModifierType m), r.2)

/-- Go `AcceleratorGetLabel`, wrapper around `gtk_accelerator_get_label`. -/
def AcceleratorGetLabel (gtk_accelerator_get_label : Nat → Nat → σ → Option CStr × σ)
    (g_free : Option CStr → σ → σ) (key mods : Nat) (w : σ) : GoString × σ :=
  let r := gtk_accelerator_get_label (C.guint key) (C.GdkModifierType mods) w
  (goString r.1, g_free r.1 r.2)

/-- Go `AcceleratorSetDefaultModMask`, wrapper around `gtk_accelerator_set_default_mod_mask`. -/
def AcceleratorSetDefaultModMask (gtk_accelerator_set_default_mod_mask : Nat → σ → σ)
    (mods : Nat) (w : σ) : σ :=
  gtk_accelerator_set_default_mod_mask (C.GdkModifierType mods) w

end Accelerators

/-! ## Object handles

`glib.Object`, `glib.Take` and `glib.ClosureNew` live in the `glib` package of
the repository, outside the files embedded here. -/

/-- Modelled from the spec: `glib.Object` is declared outside the files embedded
here; an opaque handle over a reference-counted native object, holding its address. -/
structure glib.Object where
  GObject : Ptr
  deriving DecidableEq

/-- Modelled from the spec: `(*glib.Object).Native` is declared outside the files
embedded here; the pointer-cast accessor, null for a nil handle. -/
def glib.Object.Native (v : Option glib.Object) : Ptr :=
  match v with
  | none => 0
  | some o => o.GObject

/-- Entry points that `glib.Take` needs from the object system and the managed
runtime: taking a reference and registering the finalizer that gives it back. -/
structure glib.Runtime (σ : Type) where
  g_object_ref : Ptr → σ → σ
  SetFinalizer : Ptr → σ → σ

/-- Modelled from the spec: `glib.Take` is declared outside the files embedded here;
it wraps the native object at `ptr` in a managed handle, takes one reference on it
and arranges for that reference to be released when the handle is finalized. -/
def glib.Take {σ : Type} (R : glib.Runtime σ) (ptr : Ptr) (w : σ) : Option glib.Object × σ :=
  (some ⟨ptr⟩, R.SetFinalizer ptr (R.g_object_ref ptr w))

/-- A Go value passed as `f interface{}`: the identity of a function value. -/
abbrev Callback := Nat

/-- C cast helper `toGtkAccelGroup`: the same address at another pointer type. -/
def C.toGtkAccelGroup (p : Ptr) : Ptr := p

/-- C cast helper `toGtkAccelMap`. -/
def C.toGtkAccelMap (p : Ptr) : Ptr := p

/-- C cast helper `toGObject`. -/
def C.toGObject (p : Ptr) : Ptr := p

/-- C cast helper `toGValue`. -/
def C.toGValue (p : Ptr) : Ptr := p

/-- C cast helper `toGtkWindow`. -/
def C.toGtkWindow (p : Ptr) : Ptr := p

/-! ## Flag marshaling -/

/-- Go `marshalAccelFlags`: reads the box at `p` with `g_value_get_enum`. -/
def marshalAccelFlags {σ : Type} (g_value_get_enum : Ptr → σ → Int × σ) (p : Ptr) (w : σ) :
    (AccelFlags × Option GoError) × σ :=
  let r := g_value_get_enum (C.toGValue p) w
  ((AccelFlags.ofC r.1, none), r.2)

/-! ## GtkAccelGroup -/

/-- Go `AccelGroup`, a struct embedding `*glib.Object`. -/
structure AccelGroup where
  Object : Option glib.Object
  deriving DecidableEq

/-- Go `(*AccelGroup).native`: pointer to the underlying GtkAccelGroup. -/
def AccelGroup.native (v : Option AccelGroup) : Ptr :=
  match v with
  | none => 0
  | some g => C.toGtkAccelGroup (glib.Object.Native g.Object)

/-- Go `wrapAccelGroup`: the address of a new `AccelGroup{obj}`. -/
def wrapAccelGroup (obj : Option glib.Object) : Option AccelGroup := some ⟨obj⟩

section AccelGroupOps

variable {σ : Type}

/-- Go `marshalAccelGroup`: reads the object held by the box at `p` and wraps it. -/
def marshalAccelGroup (g_value_get_object : Ptr → σ → Ptr × σ) (R : glib.Runtime σ)
    (p : Ptr) (w : σ) : (Option AccelGroup × Option GoError) × σ :=
  let r := g_value_get_object (C.toGValue p) w
  let t := glib.Take R r.1 r.2
  ((wrapAccelGroup t.1, none), t.2)

/-- Go `AccelGroupNew`, wrapper around `gtk_accel_group_new`. -/
def AccelGroupNew (gtk_accel_group_new : σ → Ptr × σ) (R : glib.Runtime σ) (w : σ) :
    (Option AccelGroup × Option GoError) × σ :=
  let r := gtk_accel_group_new w
  if r.1 = 0 then ((none, some nilPtrErr), r.2)
  else
    let t := glib.Take R r.1 r.2
    ((wrapAccelGroup t.1, none), t.2)

/-- Go `(*AccelGroup).Connect`, wrapper around `gtk_accel_group_connect`; the error of
`glib.ClosureNew` is discarded. -/
def AccelGroup.Connect (ClosureNew : Callback → σ → (Ptr × Option GoError) × σ)
    (gtk_accel_group_connect : Ptr → Nat → Nat → Nat → Ptr → σ → σ)
    (v : Option AccelGroup) (key mods : Nat) (flags : AccelFlags) (f : Callback) (w : σ) : σ :=
  let r := ClosureNew f w
  let cl := r.1.1
  gtk_accel_group_connect (AccelGroup.native v) (C.guint key) (C.GdkModifierType mods)
    (C.GtkAccelFlags flags) cl r.2

/-- Go `(*AccelGroup).Disconnect`, wrapper around `gtk_accel_group_disconnect`; the
native boolean is discarded. -/
def AccelGroup.Disconnect (ClosureNew : Callback → σ → (Ptr × Option GoError) × σ)
    (gtk_accel_group_disconnect : Ptr → Ptr → σ → Int × σ)
    (v : Option AccelGroup) (f : Callback) (w : σ) : σ :=
  let r := ClosureNew f w
  let cl := r.1.1
  (gtk_accel_group_disconnect (AccelGroup.native v) cl r.2).2

/-- Go `(*AccelGroup).DisconnectKey`, wrapper around `gtk_accel_group_disconnect_key`. -/
def AccelGroup.DisconnectKey (gtk_accel_group_disconnect_key : Ptr → Nat → Nat → σ → Int × σ)
    (v : Option AccelGroup) (key mods : Nat) (w : σ) : σ :=
  (gtk_accel_group_disconnect_key (AccelGroup.native v) (C.guint key)
    (C.GdkModifierType mods) w).2

/-- Go `AccelGroupFromClosure`, wrapper around `gtk_accel_group_from_accel_closure`. -/
def AccelGroupFromClosure (ClosureNew : Callback → σ → (Ptr × Option GoError) × σ)
    (gtk_accel_group_from_accel_closure : Ptr → σ → Ptr × σ) (R : glib.Runtime σ)
    (f : Callback) (w : σ) : Option AccelGroup × σ :=
  let r := ClosureNew f w
  let cl := r.1.1
  let c := gtk_accel_group_from_accel_closure cl r.2
  if c.1 = 0 then (none, c.2)
  else
    let t := glib.Take R c.1 c.2
    (wrapAccelGroup t.1, t.2)

/-- Go `AccelGroupsActivate`, wrapper around `gtk_accel_groups_activate`. -/
def AccelGroupsActivate (gtk_accel_groups_activate : Ptr → Nat → Nat → σ → Int × σ)
    (obj : Option glib.Object) (key mods : Nat) (w : σ) : Bool × σ :=
  let o := C.toGObject (glib.Object.Native obj)
  let r := gtk_accel_groups_activate o (C.guint key) (C.GdkModifierType mods) w
  (gobool r.1, r.2)

/-- Go `(*AccelGroup).Activate`, wrapper around `gtk_accel_group_activate`. -/
def AccelGroup.Activate (gtk_accel_group_activate : Ptr → Nat → Ptr → Nat → Nat → σ → Int × σ)
    (v : Option AccelGroup) (quark : Nat) (acceleratable : Option glib.Object)
    (key mods : Nat) (w : σ) : Bool × σ :=
  let o := C.toGObject (glib.Object.Native acceleratable)
  let r := gtk_accel_group_activate (AccelGroup.native v) (C.GQuark quark) o (C.guint key)
    (C.GdkModifierType mods) w
  (gobool r.1, r.2)

end AccelGroupOps

/-! ## GtkAccelMap -/

/-- Go `AccelMap`, a struct embedding `*glib.Object`. -/
structure AccelMap where
  Object : Option glib.Object
  deriving DecidableEq

/-- Go `(*AccelMap).native`: pointer to the underlying GtkAccelMap. -/
def AccelMap.native (v : Option AccelMap) : Ptr :=
  match v with
  | none => 0
  | some m => C.toGtkAccelMap (glib.Object.Native m.Object)

/-- Go `wrapAccelMap`: the address of a new `AccelMap{obj}`. -/
def wrapAccelMap (obj : Option glib.Object) : Option AccelMap := some ⟨obj⟩

/-- Native record `GtkAccelKey`: key code, modifier mask and flags. -/
structure GtkAccelKey where
  accel_key : Nat
  accel_mods : Nat
  accel_flags : Nat
  deriving DecidableEq

/-- Go `AccelKey`, a struct holding a pointer to a native `GtkAccelKey`; the pointer is
embedded as the record it points to, `none` for a nil pointer. -/
structure AccelKey where
  accelKey : Option GtkAccelKey
  deriving DecidableEq

/-- Go `(*AccelKey).native`. -/
def AccelKey.native (v : Option AccelKey) : Option GtkAccelKey :=
  match v with
  | none => none
  | some k => k.accelKey

/-- Go `wrapAccelKey`: the address of a new `AccelKey{obj}`. -/
def wrapAccelKey (obj : Option GtkAccelKey) : Option AccelKey := some ⟨obj⟩

section AccelMapOps

variable {σ : Type}

/-- Go `marshalAccelMap`: reads the object held by the box at `p` and wraps it. -/
def marshalAccelMap (g_value_get_object : Ptr → σ → Ptr × σ) (R : glib.Runtime σ)
    (p : Ptr) (w : σ) : (Option AccelMap × Option GoError) × σ :=
  let r := g_value_get_object (C.toGValue p) w
  let t := glib.Take R r.1 r.2
  ((wrapAccelMap t.1, none), t.2)

/-- Go `AccelMapAddEntry`, wrapper around `gtk_accel_map_add_entry`. -/
def AccelMapAddEntry (gtk_accel_map_add_entry : CStr → Nat → Nat → σ → σ)
    (path : GoString) (key mods : Nat) (w : σ) : σ :=
  let cstr := C.CString path
  gtk_accel_map_add_entry cstr (C.guint key) (C.GdkModifierType mods) w

/-- Go `AccelMapLookupEntry`, wrapper around `gtk_accel_map_lookup_entry`: the record
`v` starts zeroed, the native lookup fills it through its address. -/
def AccelMapLookupEntry
    (gtk_accel_map_lookup_entry : CStr → GtkAccelKey → σ → (Int × GtkAccelKey) × σ)
    (path : GoString) (w : σ) : Option AccelKey × σ :=
  let cstr := C.CString path
  let v : GtkAccelKey := ⟨0, 0, 0⟩
  let r := gtk_accel_map_lookup_entry cstr v w
  let c := r.1.1
  let v := r.1.2
  if gobool c then (wrapAccelKey (some v), r.2)
  else (none, r.2)

/-- Go `AccelMapChangeEntry`, wrapper around `gtk_accel_map_change_entry`. -/
def AccelMapChangeEntry
    (gtk_accel_map_change_entry : CStr → Nat → Nat → Int → σ → Int × σ)
    (path : GoString) (key mods : Nat) (replace : Bool) (w : σ) : Bool × σ :=
  let cstr := C.CString path
  let r := gtk_accel_map_change_entry cstr (C.guint key) (C.GdkModifierType mods)
    (gbool replace) w
  (gobool r.1, r.2)

/-- Go `AccelMapGet`, wrapper around `gtk_accel_map_get`. -/
def AccelMapGet (gtk_accel_map_get : σ → Ptr × σ) (R : glib.Runtime σ) (w : σ) :
    Option AccelMap × σ :=
  let c := gtk_accel_map_get w
  if c.1 = 0 then (none, c.2)
  else
    let t := glib.Take R c.1 c.2
    (wrapAccelMap t.1, t.2)

end AccelMapOps

/-! ## Opening a URI -/

/-- Modelled from the spec: `Window` is declared outside the files embedded here; an
opaque handle over a native object, like `AccelGroup`. -/
structure Window where
  Object : Option glib.Object
  deriving DecidableEq

/-- Modelled from the spec: `(*Window).native` is declared outside the files embedded
here; the pointer-cast accessor, null for a nil handle. -/
def Window.native (v : Option Window) : Ptr :=
  match v with
  | none => 0
  | some x => C.toGtkWindow (glib.Object.Native x.Object)

/-- Native error structure `GError`. -/
structure GError where
  domain : Nat
  code : Int
  message : Option CStr
  deriving DecidableEq

/-- How a Go call ends: with a value, or in a run-time panic. -/
inductive GoResult (α : Type) where
  | returned (a : α)
  | panicked
  deriving DecidableEq

/-- Go `ShowUriOnWindow`, wrapper for `gtk_show_uri_on_window`.  The error cell starts
nil; on a false answer the message is read through the cell (a nil cell is a nil
dereference) and the deferred `g_error_free` runs on the way out. -/
def ShowUriOnWindow {σ : Type} (gtk_get_current_event_time : σ → Nat × σ)
    (gtk_show_uri_on_window :
      Ptr → CStr → Nat → Option GError → σ → (Int × Option GError) × σ)
    (g_error_free : Option GError → σ → σ)
    (parent : Option Window) (uri : GoString) (w : σ) : GoResult (Option GoError) × σ :=
  let cstr := C.CString uri
  let err : Option GError := none
  let t := gtk_get_current_event_time w
  let r := gtk_show_uri_on_window (Window.native parent) cstr t.1 err t.2
  let c := r.1.1
  let err := r.1.2
  if !gobool c then
    match err with
    | none => (GoResult.panicked, g_error_free none r.2)
    | some e => (GoResult.returned (some (errors.New (goString e.message))),
        g_error_free (some e) r.2)
  else (GoResult.returned none, r.2)

/-! ## The native side

The states below fix `σ` for the claims that speak about what the native side
holds afterwards: the accel map table, the bindings of accel groups, typed
property-value boxes and reference counts. -/

/-- Row of the native accel map: a path with its key, modifier mask and lock flag. -/
structure AccelEntry where
  accel_path : List Nat
  accel_key : Nat
  accel_mods : Nat
  locked : Bool
  deriving DecidableEq

/-- Modelled from the spec: the native accel map, a process-wide table mapping string
paths to (key, modifier-mask, lock-flag) triples. -/
abbrev AccelMapTable := List AccelEntry

/-- Row of the table for a path, if the path is mapped. -/
def Native.accel_path_lookup (path : List Nat) (t : AccelMapTable) : Option AccelEntry :=
  t.find? (fun e => e.accel_path == path)

/-- Modelled from the spec: native `gtk_accel_map_add_entry`; a path that is not yet
mapped gets a row with the key and mask received, a mapped path keeps its row. -/
def Native.gtk_accel_map_add_entry (accel_path : CStr) (accel_key accel_mods : Nat)
    (t : AccelMapTable) : AccelMapTable :=
  match Native.accel_path_lookup (cstrContent accel_path) t with
  | some _ => t
  | none => ⟨cstrContent accel_path, accel_key, accel_mods, false⟩ :: t

/-- Modelled from the spec: native `gtk_accel_map_lookup_entry`; TRUE and the record
filled in for a mapped path, FALSE and the record untouched otherwise. -/
def Native.gtk_accel_map_lookup_entry (accel_path : CStr) (key : GtkAccelKey)
    (t : AccelMapTable) : (Int × GtkAccelKey) × AccelMapTable :=
  match Native.accel_path_lookup (cstrContent accel_path) t with
  | some e => ((1, ⟨e.accel_key, e.accel_mods, 0⟩), t)
  | none => ((0, key), t)

/-- One (key, modifier, flags, callback-closure) binding of an accel group. -/
structure AccelBinding where
  group : Ptr
  accel_key : Nat
  accel_mods : Nat
  accel_flags : Nat
  closure : Ptr
  deriving DecidableEq

/-- Closures made so far and the bindings of the accel groups. -/
structure GroupWorld where
  lastClosure : Ptr
  closures : List (Ptr × Callback)
  bindings : List AccelBinding
  deriving DecidableEq

/-- Modelled from the spec: `glib.ClosureNew` is declared outside the files embedded
here; it boxes the callback in a newly allocated native closure and records which
callback the closure stands for. -/
def glib.ClosureNew (f : Callback) (w : GroupWorld) : (Ptr × Option GoError) × GroupWorld :=
  let c := w.lastClosure + 1
  ((c, none), ⟨c, (c, f) :: w.closures, w.bindings⟩)

/-- Modelled from the spec: native `gtk_accel_group_connect`; the group gets a new
binding of the key, mask and flags to the closure. -/
def Native.gtk_accel_group_connect (accel_group : Ptr) (accel_key accel_mods accel_flags : Nat)
    (closure : Ptr) (w : GroupWorld) : GroupWorld :=
  if accel_group = 0 ∨ closure = 0 then w
  else ⟨w.lastClosure, w.closures,
    w.bindings ++ [⟨accel_group, accel_key, accel_mods, accel_flags, closure⟩]⟩

/-- Whether a binding is one that `gtk_accel_group_disconnect` removes: a binding of
the group to the closure, or any binding of the group for a null closure. -/
def Native.disconnects (accel_group closure : Ptr) (b : AccelBinding) : Bool :=
  b.group == accel_group && (closure == 0 || b.closure == closure)

/-- Modelled from the spec: native `gtk_accel_group_disconnect`; removes the bindings
of the group to the closure and answers whether there was one. -/
def Native.gtk_accel_group_disconnect (accel_group closure : Ptr) (w : GroupWorld) :
    Int × GroupWorld :=
  (gbool (w.bindings.any (Native.disconnects accel_group closure)),
    ⟨w.lastClosure, w.closures,
      w.bindings.filter (fun b => !Native.disconnects accel_group closure b)⟩)

/-- Whether the closure is bound in the accel group. -/
def GroupWorld.isBound (w : GroupWorld) (accel_group closure : Ptr) : Bool :=
  w.bindings.any (fun b => b.group == accel_group && b.closure == closure)

/-- Fundamental type of what a property-value box holds. -/
inductive GFundamental where
  | G_TYPE_INVALID
  | G_TYPE_ENUM
  | G_TYPE_FLAGS
  | G_TYPE_OBJECT
  deriving DecidableEq

/-- Generic property-value box `GValue`: the fundamental type of the held type and
the first data word, shared by the signed and unsigned readings. -/
structure GValue where
  g_type : GFundamental
  data : Nat
  deriving DecidableEq

/-- Native memory holding property-value boxes. -/
abbrev GValueHeap := Ptr → Option GValue

/-- Native type `GTK_TYPE_ACCEL_FLAGS`: `GtkAccelFlags` is registered as a flags type. -/
def GTK_TYPE_ACCEL_FLAGS : GFundamental := GFundamental.G_TYPE_FLAGS

/-- Native `g_value_init`: the box at `value` holds the type, zeroed. -/
def Native.g_value_init (value : Ptr) (g_type : GFundamental) (h : GValueHeap) : GValueHeap :=
  fun q => if q = value then some ⟨g_type, 0⟩ else h q

/-- Native `g_value_set_flags`: stores the flags in a box that holds a flags type;
a box of another type fails the precondition check and is left alone. -/
def Native.g_value_set_flags (value : Ptr) (v_flags : Nat) (h : GValueHeap) : GValueHeap :=
  match h value with
  | some v =>
    if v.g_type = GFundamental.G_TYPE_FLAGS then
      fun q => if q = value then some ⟨v.g_type, v_flags % 2 ^ 32⟩ else h q
    else h
  | none => h

/-- Native `g_value_get_flags`: the flags of a box that holds a flags type; a box of
another type fails the precondition check and 0 is returned. -/
def Native.g_value_get_flags (value : Ptr) (h : GValueHeap) : Nat × GValueHeap :=
  match h value with
  | some v => if v.g_type = GFundamental.G_TYPE_FLAGS then (v.data % 2 ^ 32, h) else (0, h)
  | none => (0, h)

/-- Native `g_value_get_enum`: the value of a box whose type is derived from
`G_TYPE_ENUM`, read as a `gint`.  The library function opens with the precondition
check `g_return_val_if_fail (G_VALUE_HOLDS_ENUM (value), 0)`, so a box of any other
type, a flags type included, yields 0. -/
def Native.g_value_get_enum (value : Ptr) (h : GValueHeap) : Int × GValueHeap :=
  match h value with
  | some v =>
    if v.g_type = GFundamental.G_TYPE_ENUM then (wrapSigned 32 (Int.ofNat v.data), h)
    else (0, h)
  | none => (0, h)

/-- Boxing a flag bitmask: a box of the accelerator-flags type at `p` holding `f`. -/
def boxAccelFlags (p : Ptr) (f : AccelFlags) (h : GValueHeap) : GValueHeap :=
  Native.g_value_set_flags p (C.GtkAccelFlags f) (Native.g_value_init p GTK_TYPE_ACCEL_FLAGS h)

/-- Variant of `marshalAccelFlags` that reads the box with the accessor for flags types. -/
def marshalAccelFlagsWith_get_flags (p : Ptr) (h : GValueHeap) :
    (AccelFlags × Option GoError) × GValueHeap :=
  let r := Native.g_value_get_flags (C.toGValue p) h
  ((AccelFlags.ofC (wrapSigned 32 (Int.ofNat r.1)), none), r.2)

/-- Reference counts of the native objects (0 for an object that is released) and
the finalizers registered for managed handles, by the address they release. -/
structure RefWorld where
  ref_count : Ptr → Nat
  finalizers : List Ptr

/-- Modelled from the spec: native `g_object_ref`; one more reference on a live object,
nothing for a null pointer or a released object. -/
def Native.g_object_ref (object : Ptr) (w : RefWorld) : RefWorld :=
  if object = 0 ∨ w.ref_count object = 0 then w
  else ⟨fun q => if q = object then w.ref_count object + 1 else w.ref_count q, w.finalizers⟩

/-- Modelled from the spec: native `g_object_unref`; one reference less on a live
object, which is released when the count reaches 0. -/
def Native.g_object_unref (object : Ptr) (w : RefWorld) : RefWorld :=
  if object = 0 ∨ w.ref_count object = 0 then w
  else ⟨fun q => if q = object then w.ref_count object - 1 else w.ref_count q, w.finalizers⟩

/-- Modelled from the spec: `runtime.SetFinalizer(obj, (*Object).Unref)`, the
registration of the release of the reference held by a handle. -/
def runtime.SetFinalizer (object : Ptr) (w : RefWorld) : RefWorld :=
  ⟨w.ref_count, object :: w.finalizers⟩

/-- The object system and runtime that `glib.Take` runs against. -/
def refRuntime : glib.Runtime RefWorld := ⟨Native.g_object_ref, runtime.SetFinalizer⟩

/-- Modelled from the spec: disposal of a managed handle; its finalizer, if still
registered, is consumed and gives back the reference with `g_object_unref`. -/
def finalize (obj : Option glib.Object) (w : RefWorld) : RefWorld :=
  if glib.Object.Native obj ∈ w.finalizers then
    Native.g_object_unref (glib.Object.Native obj)
      ⟨w.ref_count, w.finalizers.erase (glib.Object.Native obj)⟩
  else w

/-- Whether the native object is released. -/
def RefWorld.released (w : RefWorld) (object : Ptr) : Bool := w.ref_count object == 0

/-! ## Recording stand-ins and sample states -/

/-- Native stand-in for `gtk_accelerator_valid` that records the arguments it receives. -/
def spyValid (key mods : Nat) (log : List (Nat × Nat)) : Int × List (Nat × Nat) :=
  (1, (key, mods) :: log)

/-- Native stand-in for `gtk_accel_map_change_entry` that records the arguments it receives. -/
def spyChangeEntry (path : CStr) (key mods : Nat) (replace : Int)
    (log : List (CStr × Nat × Nat × Int)) : Int × List (CStr × Nat × Nat × Int) :=
  (1, (path, key, mods, replace) :: log)

/-- Native stand-in for `gtk_accel_map_add_entry` that records the arguments it receives. -/
def spyAddEntry (path : CStr) (key mods : Nat) (log : List (CStr × Nat × Nat)) :
    List (CStr × Nat × Nat) :=
  (path, key, mods) :: log

/-- The path `<M>/a`. -/
def samplePath : GoString := [60, 77, 62, 47, 97]

/-- The key code of `a` with bit 32 set: a Go `uint` that does not fit a `guint`. -/
def wideKey : Nat := 2 ^ 32 + 97

/-- A state with no closure and no binding. -/
def emptyGroups : GroupWorld := ⟨0, [], []⟩

/-- A handle on the accel group at address 4096. -/
def sampleGroup : Option AccelGroup := wrapAccelGroup (some ⟨4096⟩)

/-- Native memory with no box. -/
def emptyHeap : GValueHeap := fun _ => none

/-- A state in which no object is live. -/
def emptyRefs : RefWorld := ⟨fun _ => 0, []⟩

/-- Native constructor stand-in: a new object at address 4096 with the one reference
a constructor returns. -/
def sampleConstructor (w : RefWorld) : Ptr × RefWorld :=
  (4096, ⟨fun q => if q = 4096 then 1 else w.ref_count q, w.finalizers⟩)

/-- Native constructor stand-in that fails: a null pointer. -/
def nullConstructor (w : RefWorld) : Ptr × RefWorld := (0, w)

/-- Native parser stand-in: `a` parses to key 97 with no modifier, any other text is
rejected and both cells are set to 0. -/
def sampleParse (acc : CStr) (w : Unit) : ParseStores × Unit :=
  if cstrContent acc = [97] then (⟨some 97, some 0⟩, w) else (⟨some 0, some 0⟩, w)

/-- Native URI opener stand-in: fails with the message `no`. -/
def sampleShowUri (_parent : Ptr) (_uri : CStr) (_time : Nat) (_err : Option GError)
    (w : Unit) : (Int × Option GError) × Unit :=
  ((0, some ⟨1, 2, some [110, 111, 0]⟩), w)

/-! ## Conversions -/

theorem guint_of_lt (x : Nat) (h : x < 2 ^ 32) : C.guint x = x := by
  unfold C.guint guintBits
  exact Nat.mod_eq_of_lt h

theorem GdkModifierType_of_lt (x : Nat) (h : x < 2 ^ 32) : C.GdkModifierType x = x := by
  unfold C.GdkModifierType guintBits
  exact Nat.mod_eq_of_lt h

theorem uint_of_guint (k : Nat) (h : k < 2 ^ 32) : uint k = k := by
  unfold uint uintBits
  exact Nat.mod_eq_of_lt (by omega)

theorem ModifierType_of_guint (m : Nat) (h : m < 2 ^ 32) : gdk.ModifierType m = m := by
  unfold gdk.ModifierType uintBits
  exact Nat.mod_eq_of_lt (by omega)

theorem gobool_true_iff (c : Int) : gobool c = true ↔ c ≠ 0 := by
  simp [gobool]

theorem gobool_false_iff (c : Int) : gobool c = false ↔ c = 0 := by
  simp [gobool]

theorem gbool_ne_zero_iff (b : Bool) : gbool b ≠ 0 ↔ b = true := by
  cases b <;> simp [gbool]

/-! ## Accel map lookup -/

/-- C2: `AccelMapLookupEntry` returns nil exactly when the native lookup answers FALSE
for the path, and otherwise a non-nil `AccelKey` wrapping the record that the native
lookup filled in. -/
theorem AccelMapLookupEntry_nil_iff_unmapped {σ : Type}
    (lookup : CStr → GtkAccelKey → σ → (Int × GtkAccelKey) × σ) (path : GoString) (w : σ) :
    ((AccelMapLookupEntry lookup path w).1 = none ↔
      (lookup (C.CString path) ⟨0, 0, 0⟩ w).1.1 = 0) ∧
    ((lookup (C.CString path) ⟨0, 0, 0⟩ w).1.1 ≠ 0 →
      (AccelMapLookupEntry lookup path w).1 =
        some ⟨some (lookup (C.CString path) ⟨0, 0, 0⟩ w).1.2⟩) := by
  unfold AccelMapLookupEntry wrapAccelKey
  by_cases hc : (lookup (C.CString path) ⟨0, 0, 0⟩ w).1.1 = 0
  · simp [hc, gobool]
  · simp [hc, gobool]

/-- Instance of C2: in the accel map holding `<M>/a` with key 97 and mask 4 the lookup
of `<M>/a` wraps that record, and in the empty accel map it returns nil. -/
theorem AccelMapLookupEntry_nil_iff_unmapped_witness :
    (AccelMapLookupEntry Native.gtk_accel_map_lookup_entry samplePath []).1 = none ∧
    (AccelMapLookupEntry Native.gtk_accel_map_lookup_entry samplePath
      [⟨samplePath, 97, 4, false⟩]).1 = some ⟨some ⟨97, 4, 0⟩⟩ :=
  ⟨(AccelMapLookupEntry_nil_iff_unmapped Native.gtk_accel_map_lookup_entry samplePath []).1.2
      (by decide),
    ((AccelMapLookupEntry_nil_iff_unmapped Native.gtk_accel_map_lookup_entry samplePath
      [⟨samplePath, 97, 4, false⟩]).2 (by decide)).trans (by decide)⟩

/-! ## Opening a URI -/

theorem cstrContent_terminated (msg : List Nat) (hmsg : ∀ b ∈ msg, b ≠ 0) :
    cstrContent (msg ++ [0]) = msg := by
  unfold cstrContent
  induction msg with
  | nil => simp
  | cons x xs ih =>
    have hx : x ≠ 0 := hmsg x (List.mem_cons_self x xs)
    have hxs : ∀ b ∈ xs, b ≠ 0 := fun b hb => hmsg b (List.mem_cons_of_mem x hb)
    simp [List.takeWhile_cons, hx, ih hxs]

/-- C3: `ShowUriOnWindow` returns a nil error exactly when the native call answers
TRUE; when the native call answers FALSE and has produced an error structure whose
message field holds the bytes `msg` followed by the terminating NUL, it returns a
non-nil error whose text is exactly `msg` (the empty text for a null message field). -/
theorem ShowUriOnWindow_error_is_native_message {σ : Type}
    (time : σ → Nat × σ)
    (showUri : Ptr → CStr → Nat → Option GError → σ → (Int × Option GError) × σ)
    (free : Option GError → σ → σ) (parent : Option Window) (uri : GoString) (w : σ) :
    ((ShowUriOnWindow time showUri free parent uri w).1 = GoResult.returned none ↔
      (showUri (Window.native parent) (uri ++ [0]) (time w).1 none (time w).2).1.1 ≠ 0) ∧
    (∀ (e : GError) (msg : List Nat),
      (showUri (Window.native parent) (uri ++ [0]) (time w).1 none (time w).2).1.1 = 0 →
      (showUri (Window.native parent) (uri ++ [0]) (time w).1 none (time w).2).1.2 = some e →
      e.message = some (msg ++ [0]) → (∀ b ∈ msg, b ≠ 0) →
      (ShowUriOnWindow time showUri free parent uri w).1 =
        GoResult.returned (some (GoError.mk msg))) ∧
    (∀ e : GError,
      (showUri (Window.native parent) (uri ++ [0]) (time w).1 none (time w).2).1.1 = 0 →
      (showUri (Window.native parent) (uri ++ [0]) (time w).1 none (time w).2).1.2 = some e →
      e.message = none →
      (ShowUriOnWindow time showUri free parent uri w).1 =
        GoResult.returned (some (GoError.mk []))) := by
  unfold ShowUriOnWindow C.CString
  refine ⟨?_, ?_, ?_⟩
  · by_cases hc : (showUri (Window.native parent) (uri ++ [0]) (time w).1 none (time w).2).1.1 = 0
    · simp only [hc, gobool]
      cases (showUri (Window.native parent) (uri ++ [0]) (time w).1 none (time w).2).1.2 <;>
        simp
    · simp [hc, gobool]
  · intro e msg hc he hm hmsg
    simp [hc, he, hm, gobool, errors.New, goString, C.GoString,
      cstrContent_terminated msg hmsg]
  · intro e hc he hm
    simp [hc, he, hm, gobool, errors.New, goString, C.GoString]

/-- Instance of C3: the native call fails with an error structure whose message field
holds the bytes of `no` and a NUL, and the error returned has the text `no`. -/
theorem ShowUriOnWindow_error_is_native_message_witness :
    (ShowUriOnWindow (fun w => (0, w)) sampleShowUri (fun _ w => w) none samplePath ()).1 =
      GoResult.returned (some (GoError.mk [110, 111])) :=
  (ShowUriOnWindow_error_is_native_message (fun w => (0, w)) sampleShowUri (fun _ w => w)
    none samplePath ()).2.1 ⟨1, 2, some [110, 111, 0]⟩ [110, 111] (by decide) (by decide)
    (by decide) (by decide)

/-- A native call that answers FALSE and leaves the error cell nil makes
`ShowUriOnWindow` end in a nil dereference. -/
theorem ShowUriOnWindow_nil_error_cell {σ : Type}
    (time : σ → Nat × σ)
    (showUri : Ptr → CStr → Nat → Option GError → σ → (Int × Option GError) × σ)
    (free : Option GError → σ → σ) (parent : Option Window) (uri : GoString) (w : σ)
    (hc : (showUri (Window.native parent) (C.CString uri) (time w).1 none (time w).2).1.1 = 0)
    (he : (showUri (Window.native parent) (C.CString uri) (time w).1 none (time w).2).1.2 = none) :
    (ShowUriOnWindow time showUri free parent uri w).1 = GoResult.panicked := by
  unfold ShowUriOnWindow
  simp [hc, he, gobool]

/-! ## Parsing -/

/-- C4: when the native parser rejects the text, storing 0 in a cell or leaving it as
it was, `AcceleratorParse` returns key 0 and mask 0 (its result has no error part);
otherwise it returns exactly the key and mask the native parser stored. -/
theorem AcceleratorParse_zero_or_native_values {σ : Type}
    (parse : CStr → σ → ParseStores × σ) (acc : GoString) (w : σ) :
    (((parse (C.CString acc) w).1.accelerator_key = none ∨
        (parse (C.CString acc) w).1.accelerator_key = some 0) →
      ((parse (C.CString acc) w).1.accelerator_mods = none ∨
        (parse (C.CString acc) w).1.accelerator_mods = some 0) →
      (AcceleratorParse parse acc w).1 = (0, 0)) ∧
    (∀ k m : Nat, (parse (C.CString acc) w).1.accelerator_key = some k →
      (parse (C.CString acc) w).1.accelerator_mods = some m → k < 2 ^ 32 → m < 2 ^ 32 →
      (AcceleratorParse parse acc w).1 = (k, m)) ∧
    (AcceleratorParse parse acc w).2 = (parse (C.CString acc) w).2 := by
  unfold AcceleratorParse
  refine ⟨?_, ?_, rfl⟩
  · intro hk hm
    rcases hk with hk | hk <;> rcases hm with hm | hm <;>
      simp [hk, hm, uint, gdk.ModifierType, C.guint, C.GdkModifierType]
  · intro k m hk hm hk32 hm32
    simp [hk, hm, uint_of_guint k hk32, ModifierType_of_guint m hm32]

/-- Instance of C4: the stand-in parser rejects `?` and parses `a`. -/
theorem AcceleratorParse_zero_or_native_values_witness :
    (AcceleratorParse sampleParse [63] ()).1 = (0, 0) ∧
    (AcceleratorParse sampleParse [97] ()).1 = (97, 0) :=
  ⟨(AcceleratorParse_zero_or_native_values sampleParse [63] ()).1
      (Or.inr (by decide)) (Or.inr (by decide)),
    (AcceleratorParse_zero_or_native_values sampleParse [97] ()).2.1 97 0
      (by decide) (by decide) (by norm_num) (by norm_num)⟩

/-! ## Marshaling of the key code -/

/-- C7 fails as stated: the Go `uint` key `2^32 + 97` reaches `gtk_accelerator_valid`
as 97. -/
theorem AcceleratorValid_wide_key_truncated :
    wideKey < 2 ^ uintBits ∧
    (AcceleratorValid spyValid wideKey 0 []).2 = [(97, 0)] ∧
    (97 : Nat) ≠ wideKey := by
  decide

/-- C7, amended: a key below `2^32` reaches the native function unchanged, in
`AcceleratorValid`, `AccelMapAddEntry` and the other wrappers that take a key: each
wrapper is the native function applied to `key` itself. -/
theorem key_below_guint_range_is_passed_unchanged {σ : Type}
    (valid : Nat → Nat → σ → Int × σ)
    (add : CStr → Nat → Nat → σ → σ)
    (change : CStr → Nat → Nat → Int → σ → Int × σ)
    (name label : Nat → Nat → σ → Option CStr × σ) (free : Option CStr → σ → σ)
    (connect : Ptr → Nat → Nat → Nat → Ptr → σ → σ)
    (closureNew : Callback → σ → (Ptr × Option GoError) × σ)
    (disconnectKey : Ptr → Nat → Nat → σ → Int × σ)
    (groupsActivate : Ptr → Nat → Nat → σ → Int × σ)
    (activate : Ptr → Nat → Ptr → Nat → Nat → σ → Int × σ)
    (v : Option AccelGroup) (obj : Option glib.Object) (quark : Nat) (flags : AccelFlags)
    (f : Callback) (path : GoString) (replace : Bool)
    (key mods : Nat) (w : σ) (hkey : key < 2 ^ 32) :
    AcceleratorValid valid key mods w =
      (gobool (valid key (C.GdkModifierType mods) w).1, (valid key (C.GdkModifierType mods) w).2) ∧
    AccelMapAddEntry add path key mods w = add (C.CString path) key (C.GdkModifierType mods) w ∧
    AccelMapChangeEntry change path key mods replace w =
      (gobool (change (C.CString path) key (C.GdkModifierType mods) (gbool replace) w).1,
        (change (C.CString path) key (C.GdkModifierType mods) (gbool replace) w).2) ∧
    AcceleratorName name free key mods w =
      (goString (name key (C.GdkModifierType mods) w).1,
        free (name key (C.GdkModifierType mods) w).1 (name key (C.GdkModifierType mods) w).2) ∧
    AcceleratorGetLabel label free key mods w =
      (goString (label key (C.GdkModifierType mods) w).1,
        free (label key (C.GdkModifierType mods) w).1 (label key (C.GdkModifierType mods) w).2) ∧
    AccelGroup.Connect closureNew connect v key mods flags f w =
      connect (AccelGroup.native v) key (C.GdkModifierType mods) (C.GtkAccelFlags flags)
        (closureNew f w).1.1 (closureNew f w).2 ∧
    AccelGroup.DisconnectKey disconnectKey v key mods w =
      (disconnectKey (AccelGroup.native v) key (C.GdkModifierType mods) w).2 ∧
    AccelGroupsActivate groupsActivate obj key mods w =
      (gobool (groupsActivate (C.toGObject (glib.Object.Native obj)) key
          (C.GdkModifierType mods) w).1,
        (groupsActivate (C.toGObject (glib.Object.Native obj)) key
          (C.GdkModifierType mods) w).2) ∧
    AccelGroup.Activate activate v quark obj key mods w =
      (gobool (activate (AccelGroup.native v) (C.GQuark quark)
          (C.toGObject (glib.Object.Native obj)) key (C.GdkModifierType mods) w).1,
        (activate (AccelGroup.native v) (C.GQuark quark)
          (C.toGObject (glib.Object.Native obj)) key (C.GdkModifierType mods) w).2) := by
  unfold AcceleratorValid AccelMapAddEntry AccelMapChangeEntry AcceleratorName
    AcceleratorGetLabel AccelGroup.Connect AccelGroup.DisconnectKey AccelGroupsActivate
    AccelGroup.Activate
  simp only [guint_of_lt key hkey, and_self]

/-- Instance of the amended C7 at the key code of `a`, with the recording stand-in. -/
theorem key_below_guint_range_is_passed_unchanged_witness :
    (97 : Nat) < 2 ^ 32 ∧
    AccelMapAddEntry spyAddEntry samplePath 97 4 [] = [(C.CString samplePath, 97, 4)] :=
  ⟨by norm_num,
    (key_below_guint_range_is_passed_unchanged (fun _ _ l => (1, l)) spyAddEntry
      (fun _ _ _ _ l => (1, l)) (fun _ _ l => (none, l)) (fun _ _ l => (none, l))
      (fun _ l => l) (fun _ _ _ _ _ l => l) (fun _ l => ((0, none), l))
      (fun _ _ _ l => (0, l)) (fun _ _ _ l => (0, l)) (fun _ _ _ _ _ l => (0, l))
      none none 0 0 0 samplePath false 97 4 [] (by norm_num)).2.1.trans (by decide)⟩

/-! ## Changing an accel map entry -/

/-- C8 fails as stated: with the key `2^32 + 97` the native change-entry call receives
the key 97. -/
theorem AccelMapChangeEntry_wide_key_truncated :
    wideKey < 2 ^ uintBits ∧
    (AccelMapChangeEntry spyChangeEntry samplePath wideKey 4 true []).2 =
      [(C.CString samplePath, 97, 4, 1)] ∧
    (97 : Nat) ≠ wideKey := by
  decide

/-- C8, amended: for a key and a modifier mask below `2^32`, `AccelMapChangeEntry` is
the native call on the path as a C string, the same key and mask, and a native boolean
that is true exactly when `replace` is; it returns true exactly when the native call
answers a non-zero value. -/
theorem AccelMapChangeEntry_relays_native_flag {σ : Type}
    (change : CStr → Nat → Nat → Int → σ → Int × σ)
    (path : GoString) (key mods : Nat) (replace : Bool) (w : σ)
    (hkey : key < 2 ^ 32) (hmods : mods < 2 ^ 32) :
    AccelMapChangeEntry change path key mods replace w =
      (gobool (change (path ++ [0]) key mods (gbool replace) w).1,
        (change (path ++ [0]) key mods (gbool replace) w).2) ∧
    ((AccelMapChangeEntry change path key mods replace w).1 = true ↔
      (change (path ++ [0]) key mods (gbool replace) w).1 ≠ 0) ∧
    (gbool replace ≠ 0 ↔ replace = true) := by
  unfold AccelMapChangeEntry C.CString
  simp only [guint_of_lt key hkey, GdkModifierType_of_lt mods hmods, gobool_true_iff,
    gbool_ne_zero_iff, and_self]

/-- Instance of the amended C8 with the recording stand-in. -/
theorem AccelMapChangeEntry_relays_native_flag_witness :
    (97 : Nat) < 2 ^ 32 ∧ (4 : Nat) < 2 ^ 32 ∧
    AccelMapChangeEntry spyChangeEntry samplePath 97 4 true [] =
      (true, [(samplePath ++ [0], 97, 4, 1)]) :=
  ⟨by norm_num, by norm_num,
    (AccelMapChangeEntry_relays_native_flag spyChangeEntry samplePath 97 4 true []
      (by norm_num) (by norm_num)).1.trans (by decide)⟩

/-! ## Adding to the accel map, then looking up -/

theorem accel_path_lookup_cons_self (path : List Nat) (key mods : Nat) (locked : Bool)
    (t : AccelMapTable) :
    Native.accel_path_lookup path (⟨path, key, mods, locked⟩ :: t) =
      some ⟨path, key, mods, locked⟩ := by
  simp [Native.accel_path_lookup]

theorem AccelMapLookupEntry_none_iff (path : GoString) (t : AccelMapTable) :
    (AccelMapLookupEntry Native.gtk_accel_map_lookup_entry path t).1 = none ↔
      Native.accel_path_lookup (cstrContent (C.CString path)) t = none := by
  unfold AccelMapLookupEntry Native.gtk_accel_map_lookup_entry wrapAccelKey
  cases h : Native.accel_path_lookup (cstrContent (C.CString path)) t <;> simp [h, gobool]

/-- C5 fails as stated: the path `<M>/a` is not in the empty accel map, and after it is
added with the key `2^32 + 97` the lookup returns the key 97. -/
theorem AccelMap_add_lookup_wide_key_differs :
    wideKey < 2 ^ uintBits ∧
    (AccelMapLookupEntry Native.gtk_accel_map_lookup_entry samplePath []).1 = none ∧
    (AccelMapLookupEntry Native.gtk_accel_map_lookup_entry samplePath
      (AccelMapAddEntry Native.gtk_accel_map_add_entry samplePath wideKey 4 [])).1 =
        some ⟨some ⟨97, 4, 0⟩⟩ ∧
    (97 : Nat) ≠ wideKey := by
  decide

/-- C5, amended: for a path not yet in the accel map and a key and modifier mask below
`2^32`, the lookup after `AccelMapAddEntry` returns a non-nil `AccelKey` whose key code
and modifier mask are the ones added. -/
theorem AccelMap_add_then_lookup (t : AccelMapTable) (path : GoString) (key mods : Nat)
    (hkey : key < 2 ^ 32) (hmods : mods < 2 ^ 32)
    (hnew : (AccelMapLookupEntry Native.gtk_accel_map_lookup_entry path t).1 = none) :
    ∃ k : GtkAccelKey,
      (AccelMapLookupEntry Native.gtk_accel_map_lookup_entry path
        (AccelMapAddEntry Native.gtk_accel_map_add_entry path key mods t)).1 = some ⟨some k⟩ ∧
      k.accel_key = key ∧ k.accel_mods = mods := by
  rw [AccelMapLookupEntry_none_iff] at hnew
  refine ⟨⟨key, mods, 0⟩, ?_, rfl, rfl⟩
  unfold AccelMapAddEntry Native.gtk_accel_map_add_entry
  simp only [hnew, guint_of_lt key hkey, GdkModifierType_of_lt mods hmods]
  unfold AccelMapLookupEntry Native.gtk_accel_map_lookup_entry wrapAccelKey
  simp [accel_path_lookup_cons_self, gobool]

/-- Instance of the amended C5: `<M>/a` added to the empty accel map with key 97 and
mask 4. -/
theorem AccelMap_add_then_lookup_witness :
    (97 : Nat) < 2 ^ 32 ∧ (4 : Nat) < 2 ^ 32 ∧
    (AccelMapLookupEntry Native.gtk_accel_map_lookup_entry samplePath []).1 = none ∧
    ∃ k : GtkAccelKey,
      (AccelMapLookupEntry Native.gtk_accel_map_lookup_entry samplePath
        (AccelMapAddEntry Native.gtk_accel_map_add_entry samplePath 97 4 [])).1 = some ⟨some k⟩ ∧
      k.accel_key = 97 ∧ k.accel_mods = 4 :=
  ⟨by norm_num, by norm_num, by decide,
    AccelMap_add_then_lookup [] samplePath 97 4 (by norm_num) (by norm_num) (by decide)⟩

/-! ## Creating an accel group -/

/-- C9: `AccelGroupNew` returns `(nil, nilPtrErr)` exactly when the native constructor
returns a null pointer, and otherwise a nil error with a non-nil `AccelGroup` whose
`native()` pointer is the pointer the constructor returned. -/
theorem AccelGroupNew_forwards_null_check {σ : Type}
    (ctor : σ → Ptr × σ) (R : glib.Runtime σ) (w : σ) :
    ((AccelGroupNew ctor R w).1 = (none, some nilPtrErr) ↔ (ctor w).1 = 0) ∧
    ((ctor w).1 ≠ 0 →
      ∃ g : AccelGroup, (AccelGroupNew ctor R w).1 = (some g, none) ∧
        AccelGroup.native (some g) = (ctor w).1) := by
  unfold AccelGroupNew
  by_cases hc : (ctor w).1 = 0
  · simp [hc]
  · refine ⟨?_, fun _ => ⟨⟨some ⟨(ctor w).1⟩⟩, ?_, rfl⟩⟩
    · simp [hc, wrapAccelGroup]
    · simp [hc, wrapAccelGroup, glib.Take]

/-- Instance of C9: a null pointer from the constructor gives `(nil, nilPtrErr)`, the
object at 4096 gives a handle whose `native()` is 4096. -/
theorem AccelGroupNew_forwards_null_check_witness :
    (AccelGroupNew nullConstructor refRuntime emptyRefs).1 = (none, some nilPtrErr) ∧
    ∃ g : AccelGroup, (AccelGroupNew sampleConstructor refRuntime emptyRefs).1 = (some g, none) ∧
      AccelGroup.native (some g) = (sampleConstructor emptyRefs).1 :=
  ⟨(AccelGroupNew_forwards_null_check nullConstructor refRuntime emptyRefs).1.2 (by decide),
    (AccelGroupNew_forwards_null_check sampleConstructor refRuntime emptyRefs).2 (by decide)⟩

/-! ## Connecting and disconnecting a callback -/

/-- For every state, group and callback: `Disconnect` makes a second closure for the
callback, and the closure that `Connect` registered stays bound in the group. -/
theorem Connect_then_Disconnect_still_bound (w : GroupWorld) (v : Option AccelGroup)
    (key mods : Nat) (flags : AccelFlags) (f : Callback) (hv : AccelGroup.native v ≠ 0) :
    (glib.ClosureNew f w).1.1 = w.lastClosure + 1 ∧
    (glib.ClosureNew f (AccelGroup.Connect glib.ClosureNew Native.gtk_accel_group_connect
      v key mods flags f w)).1.1 = w.lastClosure + 2 ∧
    (AccelGroup.Disconnect glib.ClosureNew Native.gtk_accel_group_disconnect v f
      (AccelGroup.Connect glib.ClosureNew Native.gtk_accel_group_connect
        v key mods flags f w)).isBound (AccelGroup.native v) (w.lastClosure + 1) = true := by
  unfold AccelGroup.Disconnect AccelGroup.Connect glib.ClosureNew
    Native.gtk_accel_group_connect Native.gtk_accel_group_disconnect GroupWorld.isBound
    Native.disconnects
  simp [hv]

/-- C1 fails on the code: after `Connect` and `Disconnect` with the same callback on
the group at 4096, the closure handed to the native connect call is closure 1, the
closure handed to the native disconnect call is closure 2, and closure 1 is still
bound in the group. -/
theorem Disconnect_leaves_Connect_closure_bound :
    (glib.ClosureNew 7 emptyGroups).1.1 = 1 ∧
    (glib.ClosureNew 7 (AccelGroup.Connect glib.ClosureNew Native.gtk_accel_group_connect
      sampleGroup 97 4 ACCEL_VISIBLE 7 emptyGroups)).1.1 = 2 ∧
    (AccelGroup.Connect glib.ClosureNew Native.gtk_accel_group_connect
      sampleGroup 97 4 ACCEL_VISIBLE 7 emptyGroups).isBound 4096 1 = true ∧
    (AccelGroup.Disconnect glib.ClosureNew Native.gtk_accel_group_disconnect sampleGroup 7
      (AccelGroup.Connect glib.ClosureNew Native.gtk_accel_group_connect
        sampleGroup 97 4 ACCEL_VISIBLE 7 emptyGroups)).isBound 4096 1 = true := by
  decide

/-- Handing the connected closure itself to the native disconnect call does remove it. -/
theorem native_disconnect_of_connected_closure (w : GroupWorld) (g cl : Ptr)
    (key mods flags : Nat) :
    (Native.gtk_accel_group_disconnect g cl
      (Native.gtk_accel_group_connect g key mods flags cl w)).2.isBound g cl = false := by
  unfold Native.gtk_accel_group_connect Native.gtk_accel_group_disconnect GroupWorld.isBound
    Native.disconnects
  by_cases h : g = 0 ∨ cl = 0 <;> simp [h, List.any_eq_false] <;> tauto

/-! ## Flag bitmask through the property-value box -/

/-- For every bitmask, `marshalAccelFlags` reads 0 from a box of the accelerator-flags
type: the box holds a flags type, not an enum type. -/
theorem marshalAccelFlags_of_flags_box (p : Ptr) (f : AccelFlags) (h : GValueHeap) :
    (marshalAccelFlags Native.g_value_get_enum p (boxAccelFlags p f h)).1 = (0, none) := by
  unfold marshalAccelFlags boxAccelFlags Native.g_value_set_flags Native.g_value_init
    Native.g_value_get_enum GTK_TYPE_ACCEL_FLAGS C.toGValue
  simp [AccelFlags.ofC, wrapSigned]

theorem flags_word_roundtrip (f : Int) (h0 : 0 ≤ f) (h7 : f ≤ 7) :
    AccelFlags.ofC (wrapSigned 32 (Int.ofNat (C.GtkAccelFlags f % 2 ^ 32 % 2 ^ 32))) = f := by
  obtain ⟨n, rfl⟩ := Int.eq_ofNat_of_zero_le h0
  have hn : n ≤ 7 := by omega
  interval_cases n <;> decide

theorem boxAccelFlags_at (p : Ptr) (f : AccelFlags) (h : GValueHeap) :
    boxAccelFlags p f h p = some ⟨GFundamental.G_TYPE_FLAGS, C.GtkAccelFlags f % 2 ^ 32⟩ := by
  unfold boxAccelFlags Native.g_value_set_flags Native.g_value_init GTK_TYPE_ACCEL_FLAGS
  simp

/-- The accessor for flags types recovers every combination of the three flag constants. -/
theorem get_flags_roundtrip (p : Ptr) (f : AccelFlags) (h : GValueHeap)
    (h0 : 0 ≤ f) (h7 : f ≤ ACCEL_MASK) :
    (marshalAccelFlagsWith_get_flags p (boxAccelFlags p f h)).1 = (f, none) := by
  unfold marshalAccelFlagsWith_get_flags Native.g_value_get_flags C.toGValue
  rw [boxAccelFlags_at]
  simp only [if_true, flags_word_roundtrip f h0 h7]

/-- C6 fails on the code: the bitmask `ACCEL_VISIBLE`, boxed in a box of the
accelerator-flags type, is unboxed by `marshalAccelFlags` as 0 (with a nil error),
while the accessor for flags types recovers it. -/
theorem marshalAccelFlags_loses_ACCEL_VISIBLE :
    (marshalAccelFlags Native.g_value_get_enum 64
      (boxAccelFlags 64 ACCEL_VISIBLE emptyHeap)).1 = (0, none) ∧
    (0 : AccelFlags) ≠ ACCEL_VISIBLE ∧
    (marshalAccelFlagsWith_get_flags 64
      (boxAccelFlags 64 ACCEL_VISIBLE emptyHeap)).1 = (ACCEL_VISIBLE, none) := by
  decide

/-! ## Reference counting of wrapped objects -/

theorem Take_ref_count (c : Ptr) (w : RefWorld) (hc : c ≠ 0) (hl : 0 < w.ref_count c) :
    (glib.Take refRuntime c w).2.ref_count c = w.ref_count c + 1 := by
  have hl2 : w.ref_count c ≠ 0 := by omega
  simp [glib.Take, refRuntime, runtime.SetFinalizer, Native.g_object_ref, hc, hl2]

theorem Take_finalizers (c : Ptr) (w : RefWorld) :
    (glib.Take refRuntime c w).2.finalizers = c :: w.finalizers := by
  unfold glib.Take refRuntime runtime.SetFinalizer Native.g_object_ref
  by_cases h : c = 0 ∨ w.ref_count c = 0 <;> simp [h]

theorem finalize_Take_ref_count (c : Ptr) (w : RefWorld) (hc : c ≠ 0)
    (hl : 0 < w.ref_count c) :
    (finalize (some ⟨c⟩) (glib.Take refRuntime c w).2).ref_count c = w.ref_count c := by
  have hl2 : w.ref_count c ≠ 0 := by omega
  simp [finalize, glib.Object.Native, glib.Take, refRuntime, runtime.SetFinalizer,
    Native.g_object_ref, Native.g_object_unref, hc, hl2]

theorem finalize_Take_finalizers (c : Ptr) (w : RefWorld) (hc : c ≠ 0)
    (hl : 0 < w.ref_count c) :
    (finalize (some ⟨c⟩) (glib.Take refRuntime c w).2).finalizers = w.finalizers := by
  have hl2 : w.ref_count c ≠ 0 := by omega
  simp [finalize, glib.Object.Native, glib.Take, refRuntime, runtime.SetFinalizer,
    Native.g_object_ref, Native.g_object_unref, hc, hl2]

theorem finalize_released_iff (c : Ptr) (w : RefWorld) (hc : c ≠ 0)
    (hf : c ∈ w.finalizers) (hl : 0 < w.ref_count c) :
    (finalize (some ⟨c⟩) w).released c = true ↔ w.ref_count c = 1 := by
  have hl2 : w.ref_count c ≠ 0 := by omega
  simp [finalize, glib.Object.Native, Native.g_object_unref, RefWorld.released, hc, hf, hl2]
  omega

theorem finalize_twice (c : Ptr) (w : RefWorld) (hf : c ∉ w.finalizers) :
    finalize (some ⟨c⟩) w = w := by
  simp [finalize, glib.Object.Native, hf]

theorem AccelGroupNew_eq_Take {σ : Type} (ctor : σ → Ptr × σ) (R : glib.Runtime σ) (w : σ)
    (hc : (ctor w).1 ≠ 0) :
    AccelGroupNew ctor R w =
      ((wrapAccelGroup (some ⟨(ctor w).1⟩), none), (glib.Take R (ctor w).1 (ctor w).2).2) := by
  simp [AccelGroupNew, hc, glib.Take]

theorem marshalAccelGroup_eq_Take {σ : Type} (getObject : Ptr → σ → Ptr × σ)
    (R : glib.Runtime σ) (p : Ptr) (w : σ) :
    marshalAccelGroup getObject R p w =
      ((wrapAccelGroup (some ⟨(getObject p w).1⟩), none),
        (glib.Take R (getObject p w).1 (getObject p w).2).2) := by
  simp [marshalAccelGroup, glib.Take, C.toGValue]

theorem AccelGroupFromClosure_eq_Take {σ : Type}
    (closureNew : Callback → σ → (Ptr × Option GoError) × σ)
    (fromClosure : Ptr → σ → Ptr × σ) (R : glib.Runtime σ) (f : Callback) (w : σ)
    (hc : (fromClosure (closureNew f w).1.1 (closureNew f w).2).1 ≠ 0) :
    AccelGroupFromClosure closureNew fromClosure R f w =
      (wrapAccelGroup (some ⟨(fromClosure (closureNew f w).1.1 (closureNew f w).2).1⟩),
        (glib.Take R (fromClosure (closureNew f w).1.1 (closureNew f w).2).1
          (fromClosure (closureNew f w).1.1 (closureNew f w).2).2).2) := by
  simp [AccelGroupFromClosure, hc, glib.Take]

theorem AccelMapGet_eq_Take {σ : Type} (mapGet : σ → Ptr × σ) (R : glib.Runtime σ) (w : σ)
    (hc : (mapGet w).1 ≠ 0) :
    AccelMapGet mapGet R w =
      (wrapAccelMap (some ⟨(mapGet w).1⟩), (glib.Take R (mapGet w).1 (mapGet w).2).2) := by
  simp [AccelMapGet, hc, glib.Take]

/-- C10: for a live native object wrapped by `AccelGroupNew`, `marshalAccelGroup`,
`AccelGroupFromClosure` or `AccelMapGet`, the reference count after wrapping is one
higher than in the state the native call left, disposal of the wrapper brings it back
to that count and consumes the finalizer, so a later disposal changes nothing; and a
disposal releases the object exactly when the wrapper held the only reference. -/
theorem wrapping_takes_one_reference_released_once
    (ctor mapGet : RefWorld → Ptr × RefWorld)
    (getObject : Ptr → RefWorld → Ptr × RefWorld)
    (closureNew : Callback → RefWorld → (Ptr × Option GoError) × RefWorld)
    (fromClosure : Ptr → RefWorld → Ptr × RefWorld)
    (p : Ptr) (f : Callback) (w : RefWorld) :
    ((ctor w).1 ≠ 0 → 0 < (ctor w).2.ref_count (ctor w).1 →
      (AccelGroupNew ctor refRuntime w).1.1 = wrapAccelGroup (some ⟨(ctor w).1⟩) ∧
      (AccelGroupNew ctor refRuntime w).2.ref_count (ctor w).1 = (ctor w).2.ref_count (ctor w).1 + 1 ∧
      (finalize (some ⟨(ctor w).1⟩) (AccelGroupNew ctor refRuntime w).2).ref_count (ctor w).1 = (ctor w).2.ref_count (ctor w).1 ∧
      (finalize (some ⟨(ctor w).1⟩) (AccelGroupNew ctor refRuntime w).2).finalizers = (ctor w).2.finalizers) ∧
    ((getObject p w).1 ≠ 0 → 0 < (getObject p w).2.ref_count (getObject p w).1 →
      (marshalAccelGroup getObject refRuntime p w).1.1 = wrapAccelGroup (some ⟨(getObject p w).1⟩) ∧
      (marshalAccelGroup getObject refRuntime p w).2.ref_count (getObject p w).1 = (getObject p w).2.ref_count (getObject p w).1 + 1 ∧
      (finalize (some ⟨(getObject p w).1⟩) (marshalAccelGroup getObject refRuntime p w).2).ref_count (getObject p w).1 = (getObject p w).2.ref_count (getObject p w).1 ∧
      (finalize (some ⟨(getObject p w).1⟩) (marshalAccelGroup getObject refRuntime p w).2).finalizers = (getObject p w).2.finalizers) ∧
    ((fromClosure (closureNew f w).1.1 (closureNew f w).2).1 ≠ 0 → 0 < (fromClosure (closureNew f w).1.1 (closureNew f w).2).2.ref_count (fromClosure (closureNew f w).1.1 (closureNew f w).2).1 →
      (AccelGroupFromClosure closureNew fromClosure refRuntime f w).1 = wrapAccelGroup (some ⟨(fromClosure (closureNew f w).1.1 (closureNew f w).2).1⟩) ∧
      (AccelGroupFromClosure closureNew fromClosure refRuntime f w).2.ref_count (fromClosure (closureNew f w).1.1 (closureNew f w).2).1 = (fromClosure (closureNew f w).1.1 (closureNew f w).2).2.ref_count (fromClosure (closureNew f w).1.1 (closureNew f w).2).1 + 1 ∧
      (finalize (some ⟨(fromClosure (closureNew f w).1.1 (closureNew f w).2).1⟩) (AccelGroupFromClosure closureNew fromClosure refRuntime f w).2).ref_count (fromClosure (closureNew f w).1.1 (closureNew f w).2).1 = (fromClosure (closureNew f w).1.1 (closureNew f w).2).2.ref_count (fromClosure (closureNew f w).1.1 (closureNew f w).2).1 ∧
      (finalize (some ⟨(fromClosure (closureNew f w).1.1 (closureNew f w).2).1⟩) (AccelGroupFromClosure closureNew fromClosure refRuntime f w).2).finalizers = (fromClosure (closureNew f w).1.1 (closureNew f w).2).2.finalizers) ∧
    ((mapGet w).1 ≠ 0 → 0 < (mapGet w).2.ref_count (mapGet w).1 →
      (AccelMapGet mapGet refRuntime w).1 = wrapAccelMap (some ⟨(mapGet w).1⟩) ∧
      (AccelMapGet mapGet refRuntime w).2.ref_count (mapGet w).1 = (mapGet w).2.ref_count (mapGet w).1 + 1 ∧
      (finalize (some ⟨(mapGet w).1⟩) (AccelMapGet mapGet refRuntime w).2).ref_count (mapGet w).1 = (mapGet w).2.ref_count (mapGet w).1 ∧
      (finalize (some ⟨(mapGet w).1⟩) (AccelMapGet mapGet refRuntime w).2).finalizers = (mapGet w).2.finalizers) ∧
    (∀ (c : Ptr) (w3 : RefWorld), c ≠ 0 → c ∈ w3.finalizers → 0 < w3.ref_count c →
      ((finalize (some ⟨c⟩) w3).released c = true ↔ w3.ref_count c = 1)) ∧
    (∀ (c : Ptr) (w3 : RefWorld), c ∉ w3.finalizers → finalize (some ⟨c⟩) w3 = w3) := by
  refine ⟨fun hc hl => ?_, fun hc hl => ?_, fun hc hl => ?_, fun hc hl => ?_,
    fun c w3 hc hf hl => finalize_released_iff c w3 hc hf hl,
    fun c w3 hf => finalize_twice c w3 hf⟩
  · rw [AccelGroupNew_eq_Take ctor refRuntime w hc]
    exact ⟨rfl, Take_ref_count _ _ hc hl, finalize_Take_ref_count _ _ hc hl,
      finalize_Take_finalizers _ _ hc hl⟩
  · rw [marshalAccelGroup_eq_Take getObject refRuntime p w]
    exact ⟨rfl, Take_ref_count _ _ hc hl, finalize_Take_ref_count _ _ hc hl,
      finalize_Take_finalizers _ _ hc hl⟩
  · rw [AccelGroupFromClosure_eq_Take closureNew fromClosure refRuntime f w hc]
    exact ⟨rfl, Take_ref_count _ _ hc hl, finalize_Take_ref_count _ _ hc hl,
      finalize_Take_finalizers _ _ hc hl⟩
  · rw [AccelMapGet_eq_Take mapGet refRuntime w hc]
    exact ⟨rfl, Take_ref_count _ _ hc hl, finalize_Take_ref_count _ _ hc hl,
      finalize_Take_finalizers _ _ hc hl⟩

/-- Instance of C10: the constructor stand-in returns the object at 4096 with one
reference; wrapped it has two, after disposal one, and the finalizer is gone. -/
theorem wrapping_takes_one_reference_released_once_witness :
    (AccelGroupNew sampleConstructor refRuntime emptyRefs).1.1 = sampleGroup ∧
    (AccelGroupNew sampleConstructor refRuntime emptyRefs).2.ref_count 4096 = 2 ∧
    (finalize (some ⟨4096⟩)
      (AccelGroupNew sampleConstructor refRuntime emptyRefs).2).ref_count 4096 = 1 ∧
    (finalize (some ⟨4096⟩)
      (AccelGroupNew sampleConstructor refRuntime emptyRefs).2).finalizers = [] :=
  (wrapping_takes_one_reference_released_once sampleConstructor sampleConstructor
    (fun _ w => (0, w)) (fun _ w => ((0, none), w)) (fun _ w => (0, w)) 0 0 emptyRefs).1
    (by decide) (by decide)

end Gotk3
